import Mathlib

/-!
# Verification of the calculator core (operation library + calculation registry/model)

Shallow embedding of `src/app/operation/__init__.py` and
`src/app/calculation/__init__.py`.

Numbers are modelled as exact rationals (`ℚ`): the Python code manipulates
floats, and every claim under scrutiny is about exact field arithmetic and
the control flow around it.  Python exceptions are modelled by an explicit
error type, and fallible functions return `Except PyError _`.

Python string primitives used by the source (`str.lower()`, `str.replace()`,
`str()` of a float) are embedded as executable character-level functions so
that concrete runs reduce inside the kernel.

A second, dynamically-typed model (`PyVal`, namespace `OperationDyn`) embeds
the behaviour of the same four `Operation` methods when handed non-numeric
Python values, following Python's operator semantics for `int`, `float` and
`str` operands; it is used for the type-mismatch claims.
-/

/-- Python exception kinds raised by the calculator core, with their message. -/
inductive PyError where
  | valueError (msg : String)
  | zeroDivisionError (msg : String)
  | typeError (msg : String)
deriving DecidableEq, Repr

deriving instance DecidableEq for Except

/-- Python's `str.lower()`: per-character lower-casing. -/
def pyLower (s : String) : String := ⟨s.data.map Char.toLower⟩

/-- Worker for `pyReplace`: replaces each non-overlapping occurrence of `pat`
(leftmost first) by `rep`; the fuel is the length of the scanned list, enough
because each step consumes at least one character of a non-empty pattern. -/
def replaceAux : Nat → List Char → List Char → List Char → List Char
  | _, [], _, _ => []
  | 0, l, _, _ => l
  | fuel + 1, c :: rest, pat, rep =>
    if pat.isPrefixOf (c :: rest) then
      rep ++ replaceAux fuel ((c :: rest).drop pat.length) pat rep
    else
      c :: replaceAux fuel rest pat rep

/-- Python's `str.replace(pattern, replacement)`: replaces every
non-overlapping occurrence, scanning left to right. -/
def pyReplace (s pat rep : String) : String :=
  ⟨replaceAux s.data.length s.data pat.data rep.data⟩

namespace Operation

/-- `Operation.addition`: `return a + b`. -/
def addition (a b : ℚ) : ℚ := a + b

/-- `Operation.subtraction`: `return a - b`. -/
def subtraction (a b : ℚ) : ℚ := a - b

/-- `Operation.multiplication`: `return a * b`. -/
def multiplication (a b : ℚ) : ℚ := a * b

/-- `Operation.division`: `if b == 0: raise ValueError("Division by zero is
not allowed.")`, then `return a / b`. -/
def division (a b : ℚ) : Except PyError ℚ :=
  if b = 0 then
    .error (.valueError "Division by zero is not allowed.")
  else
    .ok (a / b)

end Operation

/-- Digits of the fractional part `n/d` (with `n < d`), produced by repeated
multiplication by 10; the fuel bounds the number of emitted digits.  Every
value a Python float can hold is a dyadic rational, whose decimal expansion
terminates, so the fuel is never exhausted on float-representable inputs. -/
def fracDigits : Nat → Nat → Nat → String
  | _, 0, _ => ""
  | 0, _ + 1, _ => ""
  | fuel + 1, n + 1, d =>
    let m := (n + 1) * 10
    toString (m / d) ++ fracDigits fuel (m % d) d

/-- `str()` of a Python float, in the exact-rational model: sign, integer
part, a dot, then the fractional digits (a single `0` when the value is
integral, as Python prints `10.0`). -/
def floatRepr (q : ℚ) : String :=
  let sign := if q < 0 then "-" else ""
  let n := q.num.natAbs
  let d := q.den
  let intPart := n / d
  let frac := n % d
  sign ++ toString intPart ++ "." ++ (if frac = 0 then "0" else fracDigits 60 frac d)

/-- The four registered calculation subclasses (`AddCalculation`,
`SubtractCalculation`, `MultiplyCalculation`, `DivideCalculation`). -/
inductive Variant where
  | add
  | sub
  | mul
  | div
deriving DecidableEq, Repr

/-- `self.__class__.__name__` of each calculation subclass. -/
def Variant.className : Variant → String
  | .add => "AddCalculation"
  | .sub => "SubtractCalculation"
  | .mul => "MultiplyCalculation"
  | .div => "DivideCalculation"

/-- A `Calculation` instance: its (dynamic) class together with the two
operands stored by `Calculation.__init__` (`self.a = a; self.b = b`).
The source assigns the two attributes once and never mutates them. -/
structure Calculation where
  variant : Variant
  a : ℚ
  b : ℚ
deriving DecidableEq, Repr

namespace Calculation

/-- The `execute` method of each concrete subclass:
* `AddCalculation.execute`: `return Operation.addition(self.a, self.b)`
* `SubtractCalculation.execute`: `return Operation.subtraction(self.a, self.b)`
* `MultiplyCalculation.execute`: `return Operation.multiplication(self.a, self.b)`
* `DivideCalculation.execute`: `if self.b == 0: raise ZeroDivisionError("Cannot
  divide by zero.")`, then `return Operation.division(self.a, self.b)`.
-/
def execute (c : Calculation) : Except PyError ℚ :=
  match c.variant with
  | .add => .ok (Operation.addition c.a c.b)
  | .sub => .ok (Operation.subtraction c.a c.b)
  | .mul => .ok (Operation.multiplication c.a c.b)
  | .div =>
    if c.b = 0 then
      .error (.zeroDivisionError "Cannot divide by zero.")
    else
      Operation.division c.a c.b

/-- `Calculation.__str__` (the `describe()` of the spec):
`result = self.execute()`, then
`operation_name = self.__class__.__name__.replace('Calculation', '')`, then
`return f"{self.__class__.__name__}: {self.a} {operation_name} {self.b} = {result}"`.
An exception raised by `execute` propagates unchanged. -/
def str (c : Calculation) : Except PyError String :=
  (c.execute).map fun result =>
    let operation_name := pyReplace c.variant.className "Calculation" ""
    c.variant.className ++ ": " ++ floatRepr c.a ++ " " ++ operation_name ++ " "
      ++ floatRepr c.b ++ " = " ++ floatRepr result

/-- `execute` viewed as a method on a mutable object: it returns its result
together with the post-state of the receiver.  The source method reads
`self.a` and `self.b` and assigns no attribute, so the post-state is the
receiver itself. -/
def executeSt (c : Calculation) : Except PyError (ℚ × Calculation) :=
  (c.execute).map fun r => (r, c)

/-- `__str__` viewed as a method on a mutable object: it first runs
`execute` (threading the receiver's state), then reads the class name and
the `a`/`b` attributes of the post-state to build the formatted string,
assigning no attribute itself. -/
def strSt (c : Calculation) : Except PyError (String × Calculation) :=
  (c.executeSt).map fun rc =>
    let result := rc.1
    let c₁ := rc.2
    let operation_name := pyReplace c₁.variant.className "Calculation" ""
    (c₁.variant.className ++ ": " ++ floatRepr c₁.a ++ " " ++ operation_name ++ " "
      ++ floatRepr c₁.b ++ " = " ++ floatRepr result, c₁)

end Calculation

/-- The factory's `_calculations` dictionary: an insertion-ordered mapping
from lower-cased name to the registered subclass. -/
abbrev Registry := List (String × Variant)

/-- Key lookup in the `_calculations` dict (`cls._calculations.get(key)`). -/
def Registry.get (reg : Registry) (key : String) : Option Variant :=
  reg.lookup key

/-- `', '.join(cls._calculations.keys())`: the registered names, in
registration order, comma-joined. -/
def Registry.availableTypes (reg : Registry) : String :=
  String.intercalate ", " (reg.map Prod.fst)

/-- `CalculationFactory.register_calculation(calculation_type)` applied to a
`subclass`: lower-case the name, raise
`ValueError("Calculation type '...' is already registered.")` if it is
already bound, otherwise insert it at the end of the dictionary. -/
def register_calculation (reg : Registry) (calculation_type : String) (subclass : Variant) :
    Except PyError Registry :=
  let calculation_type_lower := pyLower calculation_type
  if (reg.get calculation_type_lower).isSome then
    .error (.valueError
      ("Calculation type \x27" ++ calculation_type ++ "\x27 is already registered."))
  else
    .ok (reg ++ [(calculation_type_lower, subclass)])

/-- `CalculationFactory.create_calculation(calculation_type, a, b)`:
lower-case the name, look it up, raise a `ValueError` listing the available
types when absent, otherwise construct the registered subclass on `(a, b)`. -/
def create_calculation (reg : Registry) (calculation_type : String) (a b : ℚ) :
    Except PyError Calculation :=
  let calculation_type_lower := pyLower calculation_type
  match reg.get calculation_type_lower with
  | some calculation_class => .ok ⟨calculation_class, a, b⟩
  | none =>
    .error (.valueError
      ("Unsupported calculation type: \x27" ++ calculation_type
        ++ "\x27. Available types: " ++ reg.availableTypes))

/-- The registry as populated at import time by the four
`@CalculationFactory.register_calculation(...)` decorators, in source order:
`add`, `subtract`, `multiply`, `divide`. -/
def builtinRegistry : Registry :=
  [("add", .add), ("subtract", .sub), ("multiply", .mul), ("divide", .div)]

/-- A dynamically-typed Python value of the kinds exercised against the
Operation methods: an `int`, a `float`, or a `str`. -/
inductive PyVal where
  | int (n : ℤ)
  | float (q : ℚ)
  | str (s : String)
deriving DecidableEq, Repr

/-- Whether the value is numeric (an `int` or a `float`). -/
def PyVal.isNumeric : PyVal → Bool
  | .int _ => true
  | .float _ => true
  | .str _ => false

/-- `type(v).__name__`, as it appears in Python error messages. -/
def PyVal.typeName : PyVal → String
  | .int _ => "int"
  | .float _ => "float"
  | .str _ => "str"

/-- Python's `s * n` on a string: `n` copies of `s`, the empty string when
`n <= 0`. -/
def strRepeat (s : String) (n : ℤ) : String :=
  ⟨(List.replicate n.toNat s.data).flatten⟩

/-- Python's binary `+` on the embedded value kinds: numeric addition
(`int + int` stays `int`, any `float` makes the result `float`), string
concatenation for `str + str`, and a `TypeError` for a `str` mixed with a
number. -/
def pyAdd : PyVal → PyVal → Except PyError PyVal
  | .int m, .int n => .ok (.int (m + n))
  | .int m, .float q => .ok (.float (m + q))
  | .float q, .int n => .ok (.float (q + n))
  | .float p, .float q => .ok (.float (p + q))
  | .str s, .str t => .ok (.str (s ++ t))
  | .str _, b =>
    .error (.typeError ("can only concatenate str (not \x22" ++ b.typeName ++ "\x22) to str"))
  | a, b =>
    .error (.typeError ("unsupported operand type(s) for +: \x27" ++ a.typeName
      ++ "\x27 and \x27" ++ b.typeName ++ "\x27"))

/-- Python's binary `-` on the embedded value kinds: numeric subtraction,
and a `TypeError` whenever a `str` is involved. -/
def pySub : PyVal → PyVal → Except PyError PyVal
  | .int m, .int n => .ok (.int (m - n))
  | .int m, .float q => .ok (.float (m - q))
  | .float q, .int n => .ok (.float (q - n))
  | .float p, .float q => .ok (.float (p - q))
  | a, b =>
    .error (.typeError ("unsupported operand type(s) for -: \x27" ++ a.typeName
      ++ "\x27 and \x27" ++ b.typeName ++ "\x27"))

/-- Python's binary `*` on the embedded value kinds: numeric multiplication,
sequence repetition for `str * int` and `int * str`, and a `TypeError` for a
`str` multiplied by anything that is not an `int`. -/
def pyMul : PyVal → PyVal → Except PyError PyVal
  | .int m, .int n => .ok (.int (m * n))
  | .int m, .float q => .ok (.float (m * q))
  | .float q, .int n => .ok (.float (q * n))
  | .float p, .float q => .ok (.float (p * q))
  | .str s, .int n => .ok (.str (strRepeat s n))
  | .int n, .str s => .ok (.str (strRepeat s n))
  | .str _, b =>
    .error (.typeError ("can\x27t multiply sequence by non-int of type \x27"
      ++ b.typeName ++ "\x27"))
  | a, .str _ =>
    .error (.typeError ("can\x27t multiply sequence by non-int of type \x27"
      ++ a.typeName ++ "\x27"))

/-- Python's binary `/` (true division) on the embedded value kinds: numeric
division producing a `float`, a `ZeroDivisionError` on a zero divisor, and a
`TypeError` whenever a `str` is involved. -/
def pyTrueDiv : PyVal → PyVal → Except PyError PyVal
  | .int m, .int n =>
    if n = 0 then .error (.zeroDivisionError "division by zero")
    else .ok (.float ((m : ℚ) / (n : ℚ)))
  | .int m, .float q =>
    if q = 0 then .error (.zeroDivisionError "float division by zero")
    else .ok (.float (m / q))
  | .float p, .int n =>
    if n = 0 then .error (.zeroDivisionError "float division by zero")
    else .ok (.float (p / n))
  | .float p, .float q =>
    if q = 0 then .error (.zeroDivisionError "float division by zero")
    else .ok (.float (p / q))
  | a, b =>
    .error (.typeError ("unsupported operand type(s) for /: \x27" ++ a.typeName
      ++ "\x27 and \x27" ++ b.typeName ++ "\x27"))

/-- Python's `v == 0` on the embedded value kinds: numeric comparison with
zero; a `str` never equals `0`. -/
def pyEqZero : PyVal → Bool
  | .int n => n = 0
  | .float q => q = 0
  | .str _ => false

namespace OperationDyn

/-- `Operation.addition` run on arbitrary Python values: the body is
`return a + b`, so the behaviour is exactly Python's `+`. -/
def addition (a b : PyVal) : Except PyError PyVal := pyAdd a b

/-- `Operation.subtraction` run on arbitrary Python values: `return a - b`. -/
def subtraction (a b : PyVal) : Except PyError PyVal := pySub a b

/-- `Operation.multiplication` run on arbitrary Python values:
`return a * b`. -/
def multiplication (a b : PyVal) : Except PyError PyVal := pyMul a b

/-- `Operation.division` run on arbitrary Python values:
`if b == 0: raise ValueError("Division by zero is not allowed.")`, then
`return a / b`. -/
def division (a b : PyVal) : Except PyError PyVal :=
  if pyEqZero b then .error (.valueError "Division by zero is not allowed.")
  else pyTrueDiv a b

end OperationDyn

/-- Whether a dynamic run ended in a Python `TypeError`. -/
def isTypeError : Except PyError PyVal → Bool
  | .error (.typeError _) => true
  | _ => false

/-! ## General lemmas about the embedding -/

/-- Sanity checks for the embedded string primitives and registry. -/
example : floatRepr 10 = "10.0" := by norm_num [floatRepr]; rfl
example : floatRepr (5/2 : ℚ) = "2.5" := by norm_num [floatRepr, fracDigits]; rfl
example : pyReplace "AddCalculation" "Calculation" "" = "Add" := by decide
example : create_calculation builtinRegistry "SUBTRACT" 20 3 = .ok ⟨.sub, 20, 3⟩ := by rfl

/-- A successful lookup makes `create_calculation` return the registered
class applied to the operands. -/
theorem create_calculation_ok (reg : Registry) (n : String) (v : Variant) (a b : ℚ)
    (h : Registry.get reg (pyLower n) = some v) :
    create_calculation reg n a b = .ok ⟨v, a, b⟩ := by
  simp only [create_calculation, h]

/-- Appending a fresh binding makes it visible to lookup. -/
theorem lookup_append_single_of_none {l : List (String × Variant)} {k : String} {v : Variant}
    (h : l.lookup k = none) : (l ++ [(k, v)]).lookup k = some v := by
  induction l with
  | nil => simp [List.lookup]
  | cons p tl ih =>
    obtain ⟨k', v'⟩ := p
    simp only [List.cons_append, List.lookup] at h ⊢
    cases hbeq : (k == k') with
    | true => simp [hbeq] at h
    | false => simp only [hbeq] at h ⊢; exact ih h

/-- Registering a fresh (lower-cased) name appends its binding. -/
theorem register_calculation_ok (reg : Registry) (n : String) (v : Variant)
    (h : Registry.get reg (pyLower n) = none) :
    register_calculation reg n v = .ok (reg ++ [(pyLower n, v)]) := by
  simp [register_calculation, h]

/-- A successful registration happened on a fresh name and appended it. -/
theorem register_calculation_ok_inv {reg reg₁ : Registry} {n : String} {v : Variant}
    (h : register_calculation reg n v = .ok reg₁) :
    Registry.get reg (pyLower n) = none ∧ reg₁ = reg ++ [(pyLower n, v)] := by
  by_cases hs : (Registry.get reg (pyLower n)).isSome
  · simp [register_calculation, hs] at h
  · have hnone : Registry.get reg (pyLower n) = none :=
      Option.not_isSome_iff_eq_none.mp hs
    refine ⟨hnone, ?_⟩
    simp [register_calculation, hnone] at h
    exact h.symm

/-! ## The claims -/

/-- C1: for every registered name `n` and all operands `a`, `b`, the
calculation returned by `create_calculation(n, a, b)` has an `execute()`
returning exactly the value of the direct `Operation` library call for the
corresponding operation, except the Divide variant with `b = 0`, where
`execute()` fails with the calculation layer's own
`ZeroDivisionError("Cannot divide by zero.")` and does not produce the
library division's outcome. -/
theorem C1_create_execute_matches_library (n : String) (v : Variant) (a b : ℚ)
    (h : Registry.get builtinRegistry (pyLower n) = some v) :
    create_calculation builtinRegistry n a b = .ok ⟨v, a, b⟩ ∧
    (v = .add → Calculation.execute ⟨v, a, b⟩ = .ok (Operation.addition a b)) ∧
    (v = .sub → Calculation.execute ⟨v, a, b⟩ = .ok (Operation.subtraction a b)) ∧
    (v = .mul → Calculation.execute ⟨v, a, b⟩ = .ok (Operation.multiplication a b)) ∧
    (v = .div → b ≠ 0 → Calculation.execute ⟨v, a, b⟩ = Operation.division a b) ∧
    (v = .div → b = 0 →
      Calculation.execute ⟨v, a, b⟩ = .error (.zeroDivisionError "Cannot divide by zero.") ∧
      Calculation.execute ⟨v, a, b⟩ ≠ Operation.division a b) := by
  refine ⟨create_calculation_ok _ _ _ _ _ h, ?_, ?_, ?_, ?_, ?_⟩
  · rintro rfl; rfl
  · rintro rfl; rfl
  · rintro rfl; rfl
  · rintro rfl hb; simp [Calculation.execute, hb]
  · rintro rfl rfl
    refine ⟨by simp [Calculation.execute], ?_⟩
    simp [Calculation.execute, Operation.division]

/-- Witness for C1 at the Divide variant with a zero divisor. -/
theorem C1_witness :
    Registry.get builtinRegistry (pyLower "divide") = some Variant.div ∧
    create_calculation builtinRegistry "divide" 6 0 = .ok ⟨Variant.div, 6, 0⟩ ∧
    Calculation.execute ⟨Variant.div, 6, 0⟩
      = .error (.zeroDivisionError "Cannot divide by zero.") := by
  have h := C1_create_execute_matches_library "divide" Variant.div 6 0 (by decide)
  exact ⟨by decide, h.1, (h.2.2.2.2.2 rfl rfl).1⟩

/-- C3: the library's `division` returns `a / b`, except on a zero divisor,
where it fails with `ValueError("Division by zero is not allowed.")`; the
guard lives in the library itself. -/
theorem C3_library_division_guard (a b : ℚ) :
    (b = 0 → Operation.division a b
      = .error (.valueError "Division by zero is not allowed.")) ∧
    (b ≠ 0 → Operation.division a b = .ok (a / b)) := by
  constructor <;> intro hb <;> simp [Operation.division, hb]

/-- Witness for C3 at `b = 0` and at `b = 1`. -/
theorem C3_witness :
    Operation.division 10 0 = .error (.valueError "Division by zero is not allowed.") ∧
    Operation.division 10 1 = .ok (10 / 1) :=
  ⟨(C3_library_division_guard 10 0).1 rfl, (C3_library_division_guard 10 1).2 one_ne_zero⟩

/-- C4: for a name whose lower-casing is not bound in the registry,
`create_calculation` fails with a `ValueError` whose message contains the
rejected name and the comma-joined registered names in registration order;
with the four built-ins that list is `add, subtract, multiply, divide`. -/
theorem C4_unsupported_operation (n : String) (a b : ℚ)
    (h : Registry.get builtinRegistry (pyLower n) = none) :
    create_calculation builtinRegistry n a b =
      .error (.valueError ("Unsupported calculation type: \x27" ++ n
        ++ "\x27. Available types: " ++ Registry.availableTypes builtinRegistry)) ∧
    Registry.availableTypes builtinRegistry = "add, subtract, multiply, divide" ∧
    (∃ s₁ s₂ : String,
      "Unsupported calculation type: \x27" ++ n
        ++ "\x27. Available types: " ++ Registry.availableTypes builtinRegistry
        = s₁ ++ n ++ s₂) := by
  refine ⟨by simp only [create_calculation, h], by decide, ?_⟩
  exact ⟨"Unsupported calculation type: \x27",
    "\x27. Available types: " ++ Registry.availableTypes builtinRegistry, by
      simp [String.append_assoc]⟩

/-- Witness for C4 at the spec's `modulus` scenario. -/
theorem C4_witness :
    Registry.get builtinRegistry (pyLower "modulus") = none ∧
    create_calculation builtinRegistry "modulus" 2 3 =
      .error (.valueError ("Unsupported calculation type: \x27" ++ "modulus"
        ++ "\x27. Available types: " ++ Registry.availableTypes builtinRegistry)) :=
  ⟨by decide, (C4_unsupported_operation "modulus" 2 3 (by decide)).1⟩

/-- C5: registering a name whose lower-casing is already bound fails with
`ValueError("Calculation type '...' is already registered.")`; the failed
attempt changes nothing, and the first registration's binding still drives
`create_calculation`. -/
theorem C5_duplicate_registration (reg reg₁ : Registry) (n₁ n₂ : String)
    (v₁ v₂ : Variant) (a b : ℚ)
    (hreg : register_calculation reg n₁ v₁ = .ok reg₁)
    (hsame : pyLower n₂ = pyLower n₁) :
    register_calculation reg₁ n₂ v₂ =
      .error (.valueError
        ("Calculation type \x27" ++ n₂ ++ "\x27 is already registered.")) ∧
    create_calculation reg₁ n₁ a b = .ok ⟨v₁, a, b⟩ := by
  obtain ⟨hnone, rfl⟩ := register_calculation_ok_inv hreg
  have hget : Registry.get (reg ++ [(pyLower n₁, v₁)]) (pyLower n₁) = some v₁ :=
    lookup_append_single_of_none hnone
  constructor
  · simp [register_calculation, hsame, hget]
  · exact create_calculation_ok _ _ _ _ _ hget

/-- Witness for C5: registering `POWER` after `Power` fails and `Power`'s
binding still creates the originally registered variant. -/
theorem C5_witness :
    register_calculation [] "Power" Variant.add = .ok [("power", Variant.add)] ∧
    pyLower "POWER" = pyLower "Power" ∧
    register_calculation [("power", Variant.add)] "POWER" Variant.mul =
      .error (.valueError
        ("Calculation type \x27" ++ "POWER" ++ "\x27 is already registered.")) ∧
    create_calculation [("power", Variant.add)] "Power" 1 2 =
      .ok ⟨Variant.add, 1, 2⟩ := by
  have h := C5_duplicate_registration [] [("power", Variant.add)] "Power" "POWER"
    Variant.add Variant.mul 1 2 (by decide) (by decide)
  exact ⟨by decide, by decide, h.1, h.2⟩

/-- `floatRepr` at the concrete values of the spec's scenarios. -/
theorem floatRepr_concrete :
    floatRepr 10 = "10.0" ∧ floatRepr 5 = "5.0" ∧ floatRepr 15 = "15.0" ∧
    floatRepr 20 = "20.0" ∧ floatRepr 3 = "3.0" ∧ floatRepr 17 = "17.0" := by
  refine ⟨?_, ?_, ?_, ?_, ?_, ?_⟩ <;> (norm_num [floatRepr]; rfl)

/-- C6: `describe()` produces
`<VariantName>: <a> <OperationWord> <b> = <result>` with the result coming
from `execute()`, the operation word being the class name with the
`Calculation` suffix stripped; concretely,
`create("add", 10.0, 5.0).describe()` is
`"AddCalculation: 10.0 Add 5.0 = 15.0"`. -/
theorem C6_describe_format (c : Calculation) (r : ℚ) (h : c.execute = .ok r) :
    Calculation.str c = .ok (c.variant.className ++ ": " ++ floatRepr c.a ++ " "
      ++ pyReplace c.variant.className "Calculation" "" ++ " " ++ floatRepr c.b
      ++ " = " ++ floatRepr r) ∧
    pyReplace c.variant.className "Calculation" ""
      = (match c.variant with
         | .add => "Add"
         | .sub => "Subtract"
         | .mul => "Multiply"
         | .div => "Divide") ∧
    (create_calculation builtinRegistry "add" 10 5).map Calculation.str
      = .ok (.ok "AddCalculation: 10.0 Add 5.0 = 15.0") := by
  refine ⟨by simp [Calculation.str, h, Except.map], ?_, ?_⟩
  · cases c.variant <;> decide
  · have hcreate : create_calculation builtinRegistry "add" 10 5 = .ok ⟨.add, 10, 5⟩ := rfl
    have hsum : (10 : ℚ) + 5 = 15 := by norm_num
    rw [hcreate]
    simp only [Except.map, Calculation.str, Calculation.execute, Operation.addition, hsum]
    rw [floatRepr_concrete.1, floatRepr_concrete.2.1, floatRepr_concrete.2.2.1]
    decide

/-- Witness for C6 at the Add variant on `(10, 5)`. -/
theorem C6_witness :
    Calculation.execute ⟨Variant.add, 10, 5⟩ = .ok (Operation.addition 10 5) ∧
    Calculation.str ⟨Variant.add, 10, 5⟩ =
      .ok ("AddCalculation" ++ ": " ++ floatRepr 10 ++ " "
        ++ pyReplace "AddCalculation" "Calculation" "" ++ " " ++ floatRepr 5
        ++ " = " ++ floatRepr (Operation.addition 10 5)) :=
  ⟨rfl, (C6_describe_format ⟨Variant.add, 10, 5⟩ (Operation.addition 10 5) rfl).1⟩

/-- C7: name lookup is case-insensitive: any name whose lower-casing equals a
registered key constructs the same variant with the same operands;
concretely, `create("SUBTRACT", 20.0, 3.0).execute()` returns `17.0`. -/
theorem C7_case_insensitive_lookup (n n₂ : String) (v : Variant) (a b : ℚ)
    (h : Registry.get builtinRegistry (pyLower n) = some v)
    (hcase : pyLower n₂ = pyLower n) :
    create_calculation builtinRegistry n₂ a b = .ok ⟨v, a, b⟩ ∧
    (∃ c, create_calculation builtinRegistry "SUBTRACT" 20 3 = .ok c ∧
      Calculation.execute c = .ok 17) := by
  constructor
  · exact create_calculation_ok _ _ _ _ _ (by rw [hcase]; exact h)
  · refine ⟨⟨.sub, 20, 3⟩, rfl, ?_⟩
    simp [Calculation.execute, Operation.subtraction]
    norm_num

/-- Witness for C7 with the mixed-case name `SuBtRaCt`. -/
theorem C7_witness :
    Registry.get builtinRegistry (pyLower "subtract") = some Variant.sub ∧
    pyLower "SuBtRaCt" = pyLower "subtract" ∧
    create_calculation builtinRegistry "SuBtRaCt" 1 2 = .ok ⟨Variant.sub, 1, 2⟩ :=
  ⟨by decide, by decide,
    (C7_case_insensitive_lookup "subtract" "SuBtRaCt" Variant.sub 1 2
      (by decide) (by decide)).1⟩

/-- C8: if `execute()` fails, `describe()` fails with the very same
exception; if `execute()` succeeds, `describe()` returns a string — it never
produces a partial string out of a failing `execute()`. -/
theorem C8_describe_propagates_failure (c : Calculation) :
    (∀ e, c.execute = .error e → Calculation.str c = .error e) ∧
    (∀ r, c.execute = .ok r → ∃ s, Calculation.str c = .ok s) := by
  constructor
  · intro e he
    simp [Calculation.str, he, Except.map]
  · intro r hr
    unfold Calculation.str
    rw [hr]
    exact ⟨_, rfl⟩

/-- Witness for C8 at the Divide variant with a zero divisor. -/
theorem C8_witness :
    Calculation.execute ⟨Variant.div, 1, 0⟩
      = .error (.zeroDivisionError "Cannot divide by zero.") ∧
    Calculation.str ⟨Variant.div, 1, 0⟩
      = .error (.zeroDivisionError "Cannot divide by zero.") := by
  have he : Calculation.execute ⟨Variant.div, 1, 0⟩
      = .error (.zeroDivisionError "Cannot divide by zero.") := by
    simp [Calculation.execute]
  exact ⟨he, (C8_describe_propagates_failure ⟨Variant.div, 1, 0⟩).1 _ he⟩

/-- C9: `describe()` is deterministic and side-effect-free: a successful call
leaves the object's state unchanged, and a second call on the resulting
state returns the identical string and again the same state. -/
theorem C9_describe_deterministic (c c₁ c₂ : Calculation) (s₁ s₂ : String)
    (h₁ : Calculation.strSt c = .ok (s₁, c₁))
    (h₂ : Calculation.strSt c₁ = .ok (s₂, c₂)) :
    c₁ = c ∧ c₂ = c ∧ s₂ = s₁ := by
  cases hex : c.execute with
  | error e =>
    simp [Calculation.strSt, Calculation.executeSt, hex, Except.map] at h₁
  | ok r =>
    simp only [Calculation.strSt, Calculation.executeSt, hex, Except.map,
      Except.ok.injEq, Prod.mk.injEq] at h₁
    obtain ⟨hs₁, hc₁⟩ := h₁
    subst hc₁
    simp only [Calculation.strSt, Calculation.executeSt, hex, Except.map,
      Except.ok.injEq, Prod.mk.injEq] at h₂
    obtain ⟨hs₂, hc₂⟩ := h₂
    subst hc₂
    exact ⟨rfl, rfl, hs₂.symm.trans hs₁⟩

/-- Witness for C9 at the Add variant on `(1, 2)`. -/
theorem C9_witness :
    Calculation.strSt ⟨Variant.add, 1, 2⟩ =
      .ok ("AddCalculation" ++ ": " ++ floatRepr 1 ++ " "
        ++ pyReplace "AddCalculation" "Calculation" "" ++ " " ++ floatRepr 2
        ++ " = " ++ floatRepr (Operation.addition 1 2), ⟨Variant.add, 1, 2⟩) ∧
    (⟨Variant.add, 1, 2⟩ : Calculation) = ⟨Variant.add, 1, 2⟩ := by
  have h := C9_describe_deterministic ⟨Variant.add, 1, 2⟩ ⟨Variant.add, 1, 2⟩
    ⟨Variant.add, 1, 2⟩
    ("AddCalculation" ++ ": " ++ floatRepr 1 ++ " "
      ++ pyReplace "AddCalculation" "Calculation" "" ++ " " ++ floatRepr 2
      ++ " = " ++ floatRepr (Operation.addition 1 2))
    ("AddCalculation" ++ ": " ++ floatRepr 1 ++ " "
      ++ pyReplace "AddCalculation" "Calculation" "" ++ " " ++ floatRepr 2
      ++ " = " ++ floatRepr (Operation.addition 1 2)) rfl rfl
  exact ⟨rfl, h.1⟩

/-- C10: for every registered name — including the Divide variant with
`b = 0` — creation itself succeeds, stores the operands unchanged, performs
no arithmetic, and the `ZeroDivisionError("Cannot divide by zero.")` can
only arise at `execute()` (exactly for the Divide variant with `b = 0`). -/
theorem C10_creation_never_fails (n : String) (v : Variant) (a b : ℚ)
    (h : Registry.get builtinRegistry (pyLower n) = some v) :
    create_calculation builtinRegistry n a b = .ok ⟨v, a, b⟩ ∧
    (Calculation.execute ⟨v, a, b⟩
        = .error (.zeroDivisionError "Cannot divide by zero.")
      ↔ v = .div ∧ b = 0) := by
  refine ⟨create_calculation_ok _ _ _ _ _ h, ?_, ?_⟩
  · intro he
    cases v with
    | add => simp [Calculation.execute] at he
    | sub => simp [Calculation.execute] at he
    | mul => simp [Calculation.execute] at he
    | div =>
      by_cases hb : b = 0
      · exact ⟨rfl, hb⟩
      · simp [Calculation.execute, hb, Operation.division] at he
  · rintro ⟨rfl, rfl⟩
    simp [Calculation.execute]

/-- Witness for C10 at the Divide variant with a zero divisor. -/
theorem C10_witness :
    Registry.get builtinRegistry (pyLower "divide") = some Variant.div ∧
    create_calculation builtinRegistry "divide" 5 0 = .ok ⟨Variant.div, 5, 0⟩ ∧
    Calculation.execute ⟨Variant.div, 5, 0⟩
      = .error (.zeroDivisionError "Cannot divide by zero.") := by
  have h := C10_creation_never_fails "divide" Variant.div 5 0 (by decide)
  exact ⟨by decide, h.1, h.2.mpr ⟨rfl, rfl⟩⟩

/-- C2 counterexample: `Operation.addition` applied to the two non-numeric
Python values `"a"` and `"b"` does not fail at all — it returns the
concatenated string `"ab"` — so it is false that no non-numeric argument
pair makes any of the four functions return a value. -/
theorem C2_counterexample :
    PyVal.isNumeric (.str "a") = false ∧
    PyVal.isNumeric (.str "b") = false ∧
    OperationDyn.addition (.str "a") (.str "b") = .ok (.str "ab") := by
  refine ⟨rfl, rfl, ?_⟩
  decide

/-- C2 amended: the four functions perform no type validation and defer to
Python's operator semantics.  A `float` paired with a `str`, in either
order, makes each of them fail with a `TypeError` (for division, provided
the divisor is nonzero: a zero divisor triggers the `ValueError` zero guard
first, even under a non-numeric dividend).  But not every non-numeric pair
is rejected: `str + str` concatenates and `str * int` repeats. -/
theorem C2_amended_no_type_validation (q : ℚ) (s : String) (hq : q ≠ 0) :
    isTypeError (OperationDyn.addition (.float q) (.str s)) = true ∧
    isTypeError (OperationDyn.addition (.str s) (.float q)) = true ∧
    isTypeError (OperationDyn.subtraction (.float q) (.str s)) = true ∧
    isTypeError (OperationDyn.subtraction (.str s) (.float q)) = true ∧
    isTypeError (OperationDyn.multiplication (.float q) (.str s)) = true ∧
    isTypeError (OperationDyn.multiplication (.str s) (.float q)) = true ∧
    isTypeError (OperationDyn.division (.float q) (.str s)) = true ∧
    isTypeError (OperationDyn.division (.str s) (.float q)) = true ∧
    (∀ t, OperationDyn.addition (.str s) (.str t) = .ok (.str (s ++ t))) ∧
    (∀ m : ℤ, OperationDyn.multiplication (.str s) (.int m)
      = .ok (.str (strRepeat s m))) ∧
    OperationDyn.division (.str s) (.float 0)
      = .error (.valueError "Division by zero is not allowed.") := by
  refine ⟨rfl, rfl, rfl, rfl, rfl, rfl, ?_, ?_, fun t => rfl, fun m => rfl, ?_⟩
  · simp [OperationDyn.division, pyEqZero, pyTrueDiv, isTypeError]
  · simp [OperationDyn.division, pyEqZero, pyTrueDiv, isTypeError, hq]
  · simp [OperationDyn.division, pyEqZero]

/-- Witness for the amended C2 at `q = 1`, `s = "a"`. -/
theorem C2_amended_witness :
    (1 : ℚ) ≠ 0 ∧
    isTypeError (OperationDyn.addition (.float 1) (.str "a")) = true ∧
    OperationDyn.addition (.str "a") (.str "b") = .ok (.str ("a" ++ "b")) :=
  ⟨one_ne_zero,
    (C2_amended_no_type_validation 1 "a" one_ne_zero).1,
    (C2_amended_no_type_validation 1 "a" one_ne_zero).2.2.2.2.2.2.2.2.1 "b"⟩
